import Mathlib

/-!
Shallow embedding of the CSS selector builder from `src/05-objects-tasks.js`
(the `CssSelector` class, the `CssCombine` class and the `cssSelectorBuilder`
facade object), together with theorems settling the specification claims.

JavaScript specifics that the embedding keeps:
* the singleton fields `cssElement`, `cssId`, `cssPseudoElement` start out
  `undefined` and are tested with bare truthiness (`if (this.cssElement)`),
  so both an unset field and a field holding the empty string count as absent;
* the list fields are created as empty arrays in the constructor and tested
  with `.length`, which is truthy exactly when the array is non-empty;
* the two `throw new Error(...)` sites are distinguished by their message:
  the "should not occur more then one time" message (a duplicate singleton)
  and the "should be arranged in the following order" message (an ordering
  violation); each method performs its checks before any mutation.
-/

namespace CoreJs101

/-- The two error kinds thrown by the builder, distinguished in the source by
their message strings. -/
inductive CssError where
  | duplicate
  | order
deriving DecidableEq, Repr

/-- The JavaScript message attached to each error at its `throw` site. -/
def CssError.message : CssError → String
  | .duplicate => "Element, id and pseudo-element should not occur more then one time inside the selector"
  | .order => "Selector parts should be arranged in the following order: element, id, class, attribute, pseudo-class, pseudo-element"

/-- State of a `CssSelector` instance: the three singleton fields start out
`undefined` (`none`), the three array fields start out `[]`. -/
structure CssSelector where
  cssElement : Option String := none
  cssId : Option String := none
  cssClasses : List String := []
  cssAttribute : List String := []
  cssPseudoClass : List String := []
  cssPseudoElement : Option String := none
deriving DecidableEq, Repr

/-- JavaScript truthiness of a possibly-undefined string field:
`undefined` and `""` are falsy, every other string is truthy. -/
def truthy : Option String → Bool
  | none => false
  | some s => s != ""

/-- The state produced by `new CssSelector()`. -/
def initSelector : CssSelector :=
  { cssElement := none, cssId := none, cssClasses := [], cssAttribute := [],
    cssPseudoClass := [], cssPseudoElement := none }

/-- `CssSelector.prototype.element`: duplicate check on `cssElement`, then
order check on every later field, then the assignment. -/
def CssSelector.element (s : CssSelector) (value : String) : Except CssError CssSelector :=
  if truthy s.cssElement then
    .error .duplicate
  else if truthy s.cssId || !s.cssClasses.isEmpty || !s.cssAttribute.isEmpty
      || !s.cssPseudoClass.isEmpty || truthy s.cssPseudoElement then
    .error .order
  else
    .ok { s with cssElement := some value }

/-- `CssSelector.prototype.id`: duplicate check on `cssId`, then order check
on the later fields, then the assignment. -/
def CssSelector.id (s : CssSelector) (value : String) : Except CssError CssSelector :=
  if truthy s.cssId then
    .error .duplicate
  else if !s.cssClasses.isEmpty || !s.cssAttribute.isEmpty
      || !s.cssPseudoClass.isEmpty || truthy s.cssPseudoElement then
    .error .order
  else
    .ok { s with cssId := some value }

/-- `CssSelector.prototype.class` (named `«class»` because `class` is a Lean
keyword): order check on the later fields, then the push. -/
def CssSelector.«class» (s : CssSelector) (value : String) : Except CssError CssSelector :=
  if !s.cssAttribute.isEmpty || !s.cssPseudoClass.isEmpty || truthy s.cssPseudoElement then
    .error .order
  else
    .ok { s with cssClasses := s.cssClasses ++ [value] }

/-- `CssSelector.prototype.attr`: order check on the later fields, then the
push. -/
def CssSelector.attr (s : CssSelector) (value : String) : Except CssError CssSelector :=
  if !s.cssPseudoClass.isEmpty || truthy s.cssPseudoElement then
    .error .order
  else
    .ok { s with cssAttribute := s.cssAttribute ++ [value] }

/-- `CssSelector.prototype.pseudoClass`: order check on `cssPseudoElement`,
then the push. -/
def CssSelector.pseudoClass (s : CssSelector) (value : String) : Except CssError CssSelector :=
  if truthy s.cssPseudoElement then
    .error .order
  else
    .ok { s with cssPseudoClass := s.cssPseudoClass ++ [value] }

/-- `CssSelector.prototype.pseudoElement`: duplicate check only (nothing is
later than the pseudo-element category), then the assignment. -/
def CssSelector.pseudoElement (s : CssSelector) (value : String) : Except CssError CssSelector :=
  if truthy s.cssPseudoElement then
    .error .duplicate
  else
    .ok { s with cssPseudoElement := some value }

/-- `CssSelector.prototype.stringify`: builds the string left to right.
The source guards each array block with `if (this.cssClasses)` etc.; a
JavaScript array is always truthy, so those guards never skip and the
embedding folds over the lists unconditionally. The singleton blocks are
guarded by truthiness. -/
def CssSelector.stringify (s : CssSelector) : String :=
  let str0 : String := ""
  let str1 := if truthy s.cssElement then str0 ++ s.cssElement.getD "" else str0
  let str2 := if truthy s.cssId then str1 ++ ("#" ++ s.cssId.getD "") else str1
  let str3 := s.cssClasses.foldl (fun acc e => acc ++ ("." ++ e)) str2
  let str4 := s.cssAttribute.foldl (fun acc e => acc ++ ("[" ++ e ++ "]")) str3
  let str5 := s.cssPseudoClass.foldl (fun acc e => acc ++ (":" ++ e)) str4
  if truthy s.cssPseudoElement then str5 ++ ("::" ++ s.cssPseudoElement.getD "") else str5

/-- State of a `CssCombine` instance: the single pre-rendered string. -/
structure CssCombine where
  cssString : String
deriving DecidableEq, Repr

/-- The `CssCombine` constructor: captures the joined string at construction
time. -/
def CssCombine.make (string1 combinator string2 : String) : CssCombine :=
  ⟨string1 ++ " " ++ combinator ++ " " ++ string2⟩

/-- `CssCombine.prototype.stringify`: returns the captured string. -/
def CssCombine.stringify (c : CssCombine) : String := c.cssString

/-- The two kinds of object that expose `stringify` and may be passed to
`combine`: a plain selector builder or the result of a previous combine. -/
inductive Renderable where
  | sel (s : CssSelector)
  | comb (c : CssCombine)
deriving DecidableEq, Repr

/-- Dynamic dispatch of `.stringify()` on either operand kind. -/
def Renderable.stringify : Renderable → String
  | .sel s => s.stringify
  | .comb c => c.stringify

/-- Facade `cssSelectorBuilder.element`: a fresh `CssSelector` then `element`. -/
def cssSelectorBuilder.element (value : String) : Except CssError CssSelector :=
  initSelector.element value

/-- Facade `cssSelectorBuilder.id`. -/
def cssSelectorBuilder.id (value : String) : Except CssError CssSelector :=
  initSelector.id value

/-- Facade `cssSelectorBuilder.class`. -/
def cssSelectorBuilder.«class» (value : String) : Except CssError CssSelector :=
  initSelector.«class» value

/-- Facade `cssSelectorBuilder.attr`. -/
def cssSelectorBuilder.attr (value : String) : Except CssError CssSelector :=
  initSelector.attr value

/-- Facade `cssSelectorBuilder.pseudoClass`. -/
def cssSelectorBuilder.pseudoClass (value : String) : Except CssError CssSelector :=
  initSelector.pseudoClass value

/-- Facade `cssSelectorBuilder.pseudoElement`. -/
def cssSelectorBuilder.pseudoElement (value : String) : Except CssError CssSelector :=
  initSelector.pseudoElement value

/-- Facade `cssSelectorBuilder.combine`: renders both operands and hands the
strings to the `CssCombine` constructor. -/
def cssSelectorBuilder.combine (selector1 : Renderable) (combinator : String)
    (selector2 : Renderable) : CssCombine :=
  CssCombine.make selector1.stringify combinator selector2.stringify

/-- One builder method call together with its argument, used to quantify over
"every builder operation". -/
inductive Op where
  | element (v : String)
  | id (v : String)
  | cls (v : String)
  | attr (v : String)
  | pseudoClass (v : String)
  | pseudoElement (v : String)
deriving DecidableEq, Repr

/-- Run one method call on a builder state. -/
def applyOp : Op → CssSelector → Except CssError CssSelector
  | .element v, s => s.element v
  | .id v, s => s.id v
  | .cls v, s => s.«class» v
  | .attr v, s => s.attr v
  | .pseudoClass v, s => s.pseudoClass v
  | .pseudoElement v, s => s.pseudoElement v

/-- The builder state the caller observes after a method call: on success the
returned state, on a throw the receiver unchanged — every `throw` in the
source occurs before the assignment or push of the method. -/
def stateAfter (op : Op) (s : CssSelector) : CssSelector :=
  match applyOp op s with
  | .ok s2 => s2
  | .error _ => s

/-- `stringify` as a call on the instance: the string it returns paired with
the state of the receiver after the call (the method body only reads fields
and mutates a local variable, so the receiver is returned unchanged). -/
def CssSelector.stringifyRun (s : CssSelector) : String × CssSelector :=
  (s.stringify, s)

/-- The six fragment categories, in the order the spec fixes. -/
inductive Category where
  | element
  | id
  | cls
  | attr
  | pseudoClass
  | pseudoElement
deriving DecidableEq, Repr

/-- Position of a category in the fixed order. -/
def Category.rank : Category → Nat
  | .element => 0
  | .id => 1
  | .cls => 2
  | .attr => 3
  | .pseudoClass => 4
  | .pseudoElement => 5

/-- Whether a category is populated in a builder state, in the sense the
source tests it: truthiness for the singletons, non-emptiness for the lists. -/
def populated : Category → CssSelector → Bool
  | .element, s => truthy s.cssElement
  | .id, s => truthy s.cssId
  | .cls, s => !s.cssClasses.isEmpty
  | .attr, s => !s.cssAttribute.isEmpty
  | .pseudoClass, s => !s.cssPseudoClass.isEmpty
  | .pseudoElement, s => truthy s.cssPseudoElement

/-- All six categories in order. -/
def allCategories : List Category :=
  [.element, .id, .cls, .attr, .pseudoClass, .pseudoElement]

/-- Some strictly later category than `k` is populated in `s`. -/
def laterPopulated (k : Category) (s : CssSelector) : Bool :=
  allCategories.any (fun j => decide (k.rank < j.rank) && populated j s)

/-- The category an operation targets. -/
def Op.category : Op → Category
  | .element _ => .element
  | .id _ => .id
  | .cls _ => .cls
  | .attr _ => .attr
  | .pseudoClass _ => .pseudoClass
  | .pseudoElement _ => .pseudoElement

/-- Concatenation of one rendered fragment per list element, in list order:
`pre ++ e ++ post` for each element. -/
def joinEach (pre post : String) : List String → String
  | [] => ""
  | e :: rest => pre ++ e ++ post ++ joinEach pre post rest

/-- Spec-side rendering, written from the spec wording for `render()` ("concatenating, in fixed
order: `elementTag` (bare), `#idValue`, each class as `.name`, each attribute
as `[expr]`, each pseudo-class as `:name`, and `::pseudoElement`; omits any
category with no value"), reading "no value" as the field never having been
set. Used to compare the spec description with the source `stringify`. -/
def specRender (s : CssSelector) : String :=
  (match s.cssElement with | none => "" | some t => t)
  ++ (match s.cssId with | none => "" | some v => "#" ++ v)
  ++ joinEach "." "" s.cssClasses
  ++ joinEach "[" "]" s.cssAttribute
  ++ joinEach ":" "" s.cssPseudoClass
  ++ (match s.cssPseudoElement with | none => "" | some p => "::" ++ p)

/-- The spec concatenation amended for the truthiness convention of the source:
a singleton category holding the empty string is omitted entirely, marker
included. -/
def specRenderTruthy (s : CssSelector) : String :=
  (if truthy s.cssElement then s.cssElement.getD "" else "")
  ++ (if truthy s.cssId then "#" ++ s.cssId.getD "" else "")
  ++ joinEach "." "" s.cssClasses
  ++ joinEach "[" "]" s.cssAttribute
  ++ joinEach ":" "" s.cssPseudoClass
  ++ (if truthy s.cssPseudoElement then "::" ++ s.cssPseudoElement.getD "" else "")

/-! ## Helper lemmas -/

/-- Folding the class-append step equals appending the joined fragments. -/
theorem foldl_dot (l : List String) : ∀ init : String,
    l.foldl (fun acc e => acc ++ ("." ++ e)) init = init ++ joinEach "." "" l := by
  induction l with
  | nil => intro init; simp [joinEach]
  | cons e t ih =>
    intro init
    simp only [List.foldl_cons, ih, joinEach]
    simp [String.append_assoc]

/-- Folding the attribute-append step equals appending the joined fragments. -/
theorem foldl_bracket (l : List String) : ∀ init : String,
    l.foldl (fun acc e => acc ++ ("[" ++ e ++ "]")) init = init ++ joinEach "[" "]" l := by
  induction l with
  | nil => intro init; simp [joinEach]
  | cons e t ih =>
    intro init
    simp only [List.foldl_cons, ih, joinEach]
    simp [String.append_assoc]

/-- Folding the pseudo-class-append step equals appending the joined
fragments. -/
theorem foldl_colon (l : List String) : ∀ init : String,
    l.foldl (fun acc e => acc ++ (":" ++ e)) init = init ++ joinEach ":" "" l := by
  induction l with
  | nil => intro init; simp [joinEach]
  | cons e t ih =>
    intro init
    simp only [List.foldl_cons, ih, joinEach]
    simp [String.append_assoc]

/-- `laterPopulated` at `element` spelled out as the order guard of the
`element` method. -/
theorem laterPopulated_element (s : CssSelector) :
    laterPopulated .element s
      = (truthy s.cssId || !s.cssClasses.isEmpty || !s.cssAttribute.isEmpty
          || !s.cssPseudoClass.isEmpty || truthy s.cssPseudoElement) := by
  simp [laterPopulated, allCategories, populated, Category.rank, Bool.or_assoc]

/-- `laterPopulated` at `id` spelled out as the order guard of the `id`
method. -/
theorem laterPopulated_id (s : CssSelector) :
    laterPopulated .id s
      = (!s.cssClasses.isEmpty || !s.cssAttribute.isEmpty
          || !s.cssPseudoClass.isEmpty || truthy s.cssPseudoElement) := by
  simp [laterPopulated, allCategories, populated, Category.rank, Bool.or_assoc]

/-- `laterPopulated` at `class` spelled out as the order guard of the `class`
method. -/
theorem laterPopulated_cls (s : CssSelector) :
    laterPopulated .cls s
      = (!s.cssAttribute.isEmpty || !s.cssPseudoClass.isEmpty
          || truthy s.cssPseudoElement) := by
  simp [laterPopulated, allCategories, populated, Category.rank, Bool.or_assoc]

/-- `laterPopulated` at `attr` spelled out as the order guard of the `attr`
method. -/
theorem laterPopulated_attr (s : CssSelector) :
    laterPopulated .attr s
      = (!s.cssPseudoClass.isEmpty || truthy s.cssPseudoElement) := by
  simp [laterPopulated, allCategories, populated, Category.rank, Bool.or_assoc]

/-- `laterPopulated` at `pseudoClass` spelled out as the order guard of the
`pseudoClass` method. -/
theorem laterPopulated_pseudoClass (s : CssSelector) :
    laterPopulated .pseudoClass s = truthy s.cssPseudoElement := by
  simp [laterPopulated, allCategories, populated, Category.rank]

/-! ## Claim theorems -/

/-- C1 (amended): for every builder state — in particular every builder
reached by successful calls in category order — `stringify` equals the
concatenation, in fixed category order, of the element tag bare, `#` + id,
`.name` per class in insertion order, `[expr]` per attribute, `:name` per
pseudo-class, and `::` + pseudo-element, except that a singleton category
whose stored value is the empty string is omitted entirely, marker included
(presence is tested by truthiness). -/
theorem stringify_eq_specRenderTruthy (s : CssSelector) :
    s.stringify = specRenderTruthy s := by
  simp only [CssSelector.stringify, specRenderTruthy, foldl_dot, foldl_bracket, foldl_colon]
  split_ifs <;> simp [String.append_assoc]

/-- C1 counterexample: the builder produced by the single successful call
`id("")` renders as `""` under the source `stringify`, while the spec
concatenation (`#` + id for a populated id) yields `"#"`. -/
theorem stringify_empty_id_omits_marker :
    (cssSelectorBuilder.id "").map CssSelector.stringify = .ok "" ∧
    (cssSelectorBuilder.id "").map specRender = .ok "#" ∧
    ("" : String) ≠ "#" := by
  refine ⟨rfl, rfl, by decide⟩

/-- C2 (amended): a call targeting a category with some strictly later
category populated (in the truthiness sense of the source) raises the order
error, provided — for the `element` and `id` operations — the called
operation has its own singleton field not already truthy-populated, since the duplicate is not already truthy-populated, since the duplicate
check runs first. -/
theorem order_violation_raises_order (s : CssSelector) (v : String) :
    (populated .element s = false → laterPopulated .element s = true →
      s.element v = .error .order) ∧
    (populated .id s = false → laterPopulated .id s = true →
      s.id v = .error .order) ∧
    (laterPopulated .cls s = true → s.«class» v = .error .order) ∧
    (laterPopulated .attr s = true → s.attr v = .error .order) ∧
    (laterPopulated .pseudoClass s = true → s.pseudoClass v = .error .order) := by
  refine ⟨fun h1 h2 => ?_, fun h1 h2 => ?_, fun h2 => ?_, fun h2 => ?_, fun h2 => ?_⟩
  · rw [laterPopulated_element] at h2
    simp only [populated] at h1
    unfold CssSelector.element
    rw [h1, h2]
    simp
  · rw [laterPopulated_id] at h2
    simp only [populated] at h1
    unfold CssSelector.id
    rw [h1, h2]
    simp
  · rw [laterPopulated_cls] at h2
    unfold CssSelector.«class»
    rw [h2]
    simp
  · rw [laterPopulated_attr] at h2
    unfold CssSelector.attr
    rw [h2]
    simp
  · rw [laterPopulated_pseudoClass] at h2
    unfold CssSelector.pseudoClass
    rw [h2]
    simp

/-- C2 witness: on a builder holding only the class `"c"`, calling `element`
raises the order error. -/
theorem order_violation_raises_order_w :
    CssSelector.element { initSelector with cssClasses := ["c"] } "b" = .error .order :=
  (order_violation_raises_order { initSelector with cssClasses := ["c"] } "b").1
    (by decide) (by decide)

/-- C2 counterexample: after `element("a")` then `class("c")`, calling
`element("b")` targets a category with a later category populated, yet it
raises the duplicate error, not the order error the claim demands. -/
theorem element_after_class_raises_duplicate_not_order :
    ((cssSelectorBuilder.element "a").bind (fun s => s.«class» "c")).bind
        (fun s => s.element "b") = .error .duplicate ∧
    ((cssSelectorBuilder.element "a").bind (fun s => s.«class» "c")).bind
        (fun s => s.element "b") ≠ .error .order := by
  refine ⟨rfl, fun h => ?_⟩
  rw [show ((cssSelectorBuilder.element "a").bind (fun s => s.«class» "c")).bind
      (fun s => s.element "b") = .error .duplicate from rfl] at h
  injection h with h2
  exact absurd h2 (by decide)

/-- C3 (amended): a second value for a singleton category raises the
duplicate error provided the stored first value is truthy (non-empty); an
empty-string first value does not arm the duplicate check. -/
theorem second_truthy_singleton_raises_duplicate (s : CssSelector) (v : String) :
    (truthy s.cssElement = true → s.element v = .error .duplicate) ∧
    (truthy s.cssId = true → s.id v = .error .duplicate) ∧
    (truthy s.cssPseudoElement = true → s.pseudoElement v = .error .duplicate) := by
  refine ⟨fun h => ?_, fun h => ?_, fun h => ?_⟩
  · unfold CssSelector.element
    rw [h]
    simp
  · unfold CssSelector.id
    rw [h]
    simp
  · unfold CssSelector.pseudoElement
    rw [h]
    simp

/-- C3 witness: a second `element` call on a builder whose element is the
non-empty string `"a"` raises the duplicate error. -/
theorem second_truthy_singleton_raises_duplicate_w :
    CssSelector.element { initSelector with cssElement := some "a" } "b"
      = .error .duplicate :=
  (second_truthy_singleton_raises_duplicate { initSelector with cssElement := some "a" } "b").1
    (by decide)

/-- C3 counterexample: after `element("")`, a second `element("a")` call
succeeds and overwrites instead of raising the duplicate error. -/
theorem second_element_after_empty_succeeds :
    (cssSelectorBuilder.element "").bind (fun s => s.element "a")
      = .ok { initSelector with cssElement := some "a" } ∧
    (cssSelectorBuilder.element "").bind (fun s => s.element "a")
      ≠ .error .duplicate := by
  refine ⟨rfl, fun h => ?_⟩
  rw [show (cssSelectorBuilder.element "").bind (fun s => s.element "a")
      = .ok { initSelector with cssElement := some "a" } from rfl] at h
  exact Except.noConfusion h

/-- C4: when a builder operation raises either error, the builder state the
caller observes afterwards equals the pre-call state (every `throw` in the
source precedes the mutation of the method), and the error reaches the caller
unmodified. -/
theorem error_leaves_state_unchanged (op : Op) (s : CssSelector) (e : CssError)
    (h : applyOp op s = .error e) :
    stateAfter op s = s ∧ applyOp op s = .error e := by
  refine ⟨?_, h⟩
  unfold stateAfter
  rw [h]

/-- C4 witness: `element` on a builder holding a class raises the order
error and leaves the state unchanged. -/
theorem error_leaves_state_unchanged_w :
    stateAfter (Op.element "b") { initSelector with cssClasses := ["c"] }
        = { initSelector with cssClasses := ["c"] } ∧
    applyOp (Op.element "b") { initSelector with cssClasses := ["c"] }
        = .error .order :=
  error_leaves_state_unchanged (Op.element "b")
    { initSelector with cssClasses := ["c"] } .order rfl

/-- C5: for operands of either kind and any combinator among the four
tokens, `combine` renders as the left string, a space, the combinator, a
space, and the right string — single-space padding regardless of
combinator, so nested results join flat. -/
theorem combine_renders_padded_join (l r : Renderable) (m : String)
    (_hm : m = " " ∨ m = "+" ∨ m = "~" ∨ m = ">") :
    (cssSelectorBuilder.combine l m r).stringify
      = l.stringify ++ " " ++ m ++ " " ++ r.stringify := rfl

/-- C5 witness: the descendant combinator `" "` between a plain builder and
a nested combine result yields the padded join — three consecutive spaces. -/
theorem combine_renders_padded_join_w :
    (cssSelectorBuilder.combine (.sel { initSelector with cssElement := some "a" }) " "
        (.comb (CssCombine.make "b" "+" "c"))).stringify
      = (Renderable.sel { initSelector with cssElement := some "a" }).stringify
        ++ " " ++ " " ++ " "
        ++ (Renderable.comb (CssCombine.make "b" "+" "c")).stringify :=
  combine_renders_padded_join (.sel { initSelector with cssElement := some "a" })
    (.comb (CssCombine.make "b" "+" "c")) " " (Or.inl rfl)

/-- C6: each facade entry point succeeds on a fresh `CssSelector` and
returns a builder whose state holds exactly the one supplied fragment and
nothing else; builders from separate factory calls are therefore fully
determined by their own call and share no state. -/
theorem factory_returns_fresh_singleton_state (v : String) :
    cssSelectorBuilder.element v = .ok { initSelector with cssElement := some v } ∧
    cssSelectorBuilder.id v = .ok { initSelector with cssId := some v } ∧
    cssSelectorBuilder.«class» v = .ok { initSelector with cssClasses := [v] } ∧
    cssSelectorBuilder.attr v = .ok { initSelector with cssAttribute := [v] } ∧
    cssSelectorBuilder.pseudoClass v = .ok { initSelector with cssPseudoClass := [v] } ∧
    cssSelectorBuilder.pseudoElement v = .ok { initSelector with cssPseudoElement := some v } :=
  ⟨rfl, rfl, rfl, rfl, rfl, rfl⟩

/-- C7: `stringify` is pure and idempotent — the call leaves the receiver
state exactly as it was, and a second call on that state returns the same
string as the first. -/
theorem stringify_pure_idempotent (s : CssSelector) :
    s.stringifyRun.2 = s ∧ s.stringifyRun.2.stringifyRun.1 = s.stringifyRun.1 :=
  ⟨rfl, rfl⟩

/-- C8: the rendered string of a combine result is the join captured from the
operand renders at combine time — it equals the stored `cssString`, every
`stringify` call returns it, and a subsequent successful mutation of the
left operand builder (hypothesis `h`) plays no part in it. -/
theorem combine_result_fixed_string (s : CssSelector) (m : String) (r : Renderable)
    (op : Op) (s2 : CssSelector) (_h : applyOp op s = .ok s2) :
    (cssSelectorBuilder.combine (.sel s) m r).stringify
      = s.stringify ++ " " ++ m ++ " " ++ r.stringify ∧
    (cssSelectorBuilder.combine (.sel s) m r).stringify
      = (cssSelectorBuilder.combine (.sel s) m r).cssString :=
  ⟨rfl, rfl⟩

/-- C8 witness: a combine of two element builders keeps its captured join
even though the left builder admits a further successful `id` mutation. -/
theorem combine_result_fixed_string_w :
    (cssSelectorBuilder.combine (.sel { initSelector with cssElement := some "div" }) "+"
        (.sel { initSelector with cssElement := some "p" })).stringify
      = CssSelector.stringify { initSelector with cssElement := some "div" }
        ++ " " ++ "+" ++ " "
        ++ (Renderable.sel { initSelector with cssElement := some "p" }).stringify :=
  (combine_result_fixed_string { initSelector with cssElement := some "div" } "+"
    (.sel { initSelector with cssElement := some "p" }) (Op.id "x")
    { initSelector with cssElement := some "div", cssId := some "x" } rfl).1

/-- C9 (amended): a singleton field holding the empty string is treated as
absent: a later call for the same singleton never raises the duplicate
error, succeeds and overwrites whenever the order guard also passes (for
`pseudoElement` unconditionally), and `stringify` renders the state exactly
as if the field were unset. -/
theorem empty_singleton_truthiness (s : CssSelector) (v : String) :
    (s.cssElement = some "" →
      s.element v ≠ .error .duplicate ∧
      (laterPopulated .element s = false →
        s.element v = .ok { s with cssElement := some v })) ∧
    (s.cssId = some "" →
      s.id v ≠ .error .duplicate ∧
      (laterPopulated .id s = false →
        s.id v = .ok { s with cssId := some v })) ∧
    (s.cssPseudoElement = some "" →
      s.pseudoElement v = .ok { s with cssPseudoElement := some v }) ∧
    (s.cssElement = some "" →
      s.stringify = CssSelector.stringify { s with cssElement := none }) ∧
    (s.cssId = some "" →
      s.stringify = CssSelector.stringify { s with cssId := none }) ∧
    (s.cssPseudoElement = some "" →
      s.stringify = CssSelector.stringify { s with cssPseudoElement := none }) := by
  refine ⟨fun h => ⟨?_, fun hl => ?_⟩, fun h => ⟨?_, fun hl => ?_⟩,
    fun h => ?_, fun h => ?_, fun h => ?_, fun h => ?_⟩
  · have he : truthy s.cssElement = false := by rw [h]; rfl
    unfold CssSelector.element
    rw [he]
    cases hg : (truthy s.cssId || !s.cssClasses.isEmpty || !s.cssAttribute.isEmpty
        || !s.cssPseudoClass.isEmpty || truthy s.cssPseudoElement) <;> simp
  · have he : truthy s.cssElement = false := by rw [h]; rfl
    rw [laterPopulated_element] at hl
    unfold CssSelector.element
    rw [he, hl]
    simp
  · have hi : truthy s.cssId = false := by rw [h]; rfl
    unfold CssSelector.id
    rw [hi]
    cases hg : (!s.cssClasses.isEmpty || !s.cssAttribute.isEmpty
        || !s.cssPseudoClass.isEmpty || truthy s.cssPseudoElement) <;> simp
  · have hi : truthy s.cssId = false := by rw [h]; rfl
    rw [laterPopulated_id] at hl
    unfold CssSelector.id
    rw [hi, hl]
    simp
  · have hp : truthy s.cssPseudoElement = false := by rw [h]; rfl
    unfold CssSelector.pseudoElement
    rw [hp]
    simp
  · simp [CssSelector.stringify, h, truthy]
  · simp [CssSelector.stringify, h, truthy]
  · simp [CssSelector.stringify, h, truthy]

/-- C9 witness: overwriting an empty-string pseudo-element succeeds. -/
theorem empty_singleton_truthiness_w :
    CssSelector.pseudoElement { initSelector with cssPseudoElement := some "" } "x"
      = .ok { initSelector with cssPseudoElement := some "x" } :=
  (empty_singleton_truthiness { initSelector with cssPseudoElement := some "" } "x").2.2.1 rfl

/-- C9 counterexample: after `element("")` and `class("c")`, the later
`element("a")` call does avoid the duplicate error but fails with the order
error rather than succeeding and overwriting as the claim states. -/
theorem empty_element_then_class_blocks_overwrite :
    ((cssSelectorBuilder.element "").bind (fun s => s.«class» "c")).bind
        (fun s => s.element "a") = .error .order ∧
    (((cssSelectorBuilder.element "").bind (fun s => s.«class» "c")).bind
        (fun s => s.element "a")).isOk = false := by
  refine ⟨rfl, rfl⟩

/-- C10: when an `element` or `id` call violates both rules at once — its
own singleton already truthy and a later category populated — the duplicate
check runs first, so the duplicate error is raised, never the order error. -/
theorem duplicate_checked_before_order (s : CssSelector) (v : String) :
    (truthy s.cssElement = true → laterPopulated .element s = true →
      s.element v = .error .duplicate) ∧
    (truthy s.cssId = true → laterPopulated .id s = true →
      s.id v = .error .duplicate) := by
  refine ⟨fun h _ => ?_, fun h _ => ?_⟩
  · unfold CssSelector.element
    rw [h]
    simp
  · unfold CssSelector.id
    rw [h]
    simp

/-- C10 witness: a builder with element `"a"` and class `"c"` set raises the
duplicate error on a second `element` call. -/
theorem duplicate_checked_before_order_w :
    CssSelector.element { initSelector with cssElement := some "a", cssClasses := ["c"] } "b"
      = .error .duplicate :=
  (duplicate_checked_before_order
    { initSelector with cssElement := some "a", cssClasses := ["c"] } "b").1
    (by decide) (by decide)

end CoreJs101
